import Mathlib

set_option maxRecDepth 100000

/-!
Shallow embedding of the command-dispatch core of `src/webhook.js`
(a single-file Vercel webhook for the WhatsApp Cloud API).

Modelling conventions:
* Outbound effects (text sends, audio-link sends, translation-API calls,
  handler invocations) are recorded as an ordered trace of `Event`s;
  in the model every outbound send succeeds, so the only failures a
  handler can exhibit are the ones the source makes explicit
  (the translation call's `catch`/missing field, `getAudioUrl` throwing),
  which are supplied through oracle values.
* JavaScript `undefined` for a string-valued slot is `Option.none`;
  JS truthiness of a string is "`some` of a non-empty string";
  `a || b` on such slots is `jsOr`, and `===` between two such slots is
  `Option` equality (`undefined === undefined` is true).
* Environment variables are taken at their documented defaults
  (lines 37-41 of the source).
-/

namespace BrianXMD

/-! ## JavaScript string primitives

The handful of string operations the source uses
(`split`, `trim`, `toLowerCase`, `includes`, `startsWith`, `slice(1)`,
`join`) are embedded as structurally recursive functions over
`String.data`, with the exact JS semantics (e.g. `"".split(" ")` is
`[""]`, and `split` keeps empty pieces between adjacent separators). -/

/-- `String.prototype.split(sep)` for a one-character separator, on the
underlying character list. -/
def splitCharAux (sep : Char) : List Char → List (List Char)
  | [] => [[]]
  | c :: cs =>
    match splitCharAux sep cs with
    | [] => [[]]
    | h :: t => if c = sep then [] :: h :: t else (c :: h) :: t

/-- `s.split(sep)` for a one-character separator. -/
def jsSplit (sep : Char) (s : String) : List String :=
  (splitCharAux sep s.data).map (fun l => ⟨l⟩)

/-- `s.trim()`: strip leading and trailing whitespace. -/
def jsTrim (s : String) : String :=
  ⟨((s.data.dropWhile Char.isWhitespace).reverse.dropWhile Char.isWhitespace).reverse⟩

/-- `s.toLowerCase()`. -/
def jsToLower (s : String) : String := ⟨s.data.map Char.toLower⟩

/-- `s.includes(c)` for a one-character needle. -/
def jsContains (s : String) (c : Char) : Bool := s.data.contains c

/-- `s.startsWith(p)`. -/
def jsStartsWith (s p : String) : Bool := p.data.isPrefixOf s.data

/-- `s.slice(1)`: drop the first character. -/
def jsDropFirst (s : String) : String := ⟨s.data.tail⟩

/-- `list.join(sep)`. -/
def jsJoin (sep : String) : List String → String
  | [] => ""
  | [x] => x
  | x :: xs => x ++ sep ++ jsJoin sep xs

/-- `BOT_NAME` default (webhook.js line 38). -/
def BOT_NAME : String := "BRIAN-XMD"

/-- `CREATOR` default (webhook.js line 39). -/
def CREATOR : String := "Brian 254768116434"

/-- `CHANNEL_LINK` default (webhook.js line 40). -/
def CHANNEL_LINK : String := "https://whatsapp.com/channel/0029VbC173IDDmFVlhcSOZ0Q"

/-- `GROUP_LINK` default (webhook.js line 41). -/
def GROUP_LINK : String := "https://chat.whatsapp.com/JUhD5e6E18t3ABopwuwEMC"

/-- One observable effect of handling a message.  `sendText` and
`sendAudioLink` mirror the two outbound-gateway helpers of the source;
`translateCall` records that the translation collaborator was invoked
(with the text and target actually passed); `dispatch` records that a
command handler was invoked with the given argument string. -/
inductive Event where
  | sendText (recipient body : String)
  | sendAudioLink (recipient link : String)
  | translateCall (q target : String)
  | dispatch (name args : String)
deriving DecidableEq, Repr

/-- Is this event an outbound send to the messaging platform? -/
def isOutboundSend : Event → Bool
  | Event.sendText _ _ => true
  | Event.sendAudioLink _ _ => true
  | _ => false

/-- The outbound sends of a trace, in order. -/
def outbound (t : List Event) : List Event := t.filter isOutboundSend

/-- Is this event an invocation of the command named `name`? -/
def isDispatchOf (name : String) : Event → Bool
  | Event.dispatch n _ => n == name
  | _ => false

/-- How many times the command named `name` was invoked in a trace. -/
def dispatchCount (name : String) (t : List Event) : Nat :=
  (t.filter (isDispatchOf name)).length

/-- Is this event a call to the translation collaborator? -/
def isTranslateCall : Event → Bool
  | Event.translateCall _ _ => true
  | _ => false

/-- A registered command, minus its handler (handlers are modelled
separately, keyed by the canonical `name`, because storing functions
would destroy decidable equality).  Mirrors the
`{ name, description, aliases, execute }` objects of the source. -/
structure CommandDescriptor where
  name : String
  description : String
  aliases : List String
deriving DecidableEq, Repr

/-- The registry: a JavaScript `Map` from name-or-alias to descriptor,
modelled as an insertion-ordered association list with at most one
binding per key. -/
abbrev Registry := List (String × CommandDescriptor)

/-- `Map.set` semantics: replace an existing binding in place, else
append a new one. -/
def mapSet (m : Registry) (k : String) (v : CommandDescriptor) : Registry :=
  if m.any (fun p => p.1 == k) then
    m.map (fun p => if p.1 == k then (k, v) else p)
  else m ++ [(k, v)]

/-- `Map.get` semantics. -/
def mapGet (m : Registry) (k : String) : Option CommandDescriptor :=
  (m.find? (fun p => p.1 == k)).map (fun p => p.2)

/-- `register(cmd)` (webhook.js lines 113-119): ignore a command with a
falsy name, otherwise bind the canonical name and every alias to the
descriptor.  (The source also rejects a missing `execute`; every
descriptor modelled here has a handler.) -/
def register (m : Registry) (cmd : CommandDescriptor) : Registry :=
  if cmd.name = "" then m
  else cmd.aliases.foldl (fun acc a => mapSet acc a cmd) (mapSet m cmd.name cmd)

/-- The `start` command descriptor (webhook.js lines 124-135). -/
def startCmd : CommandDescriptor :=
  { name := "start"
    description := "Welcome message + channel/group join links"
    aliases := ["welcome", "begin"] }

/-- The `ping` command descriptor (webhook.js lines 138-145). -/
def pingCmd : CommandDescriptor :=
  { name := "ping", description := "Replies with pong", aliases := ["p"] }

/-- The `help` command descriptor (webhook.js lines 148-164). -/
def helpCmd : CommandDescriptor :=
  { name := "help", description := "List available commands", aliases := ["h"] }

/-- The `translate` command descriptor (webhook.js lines 167-186). -/
def translateCmd : CommandDescriptor :=
  { name := "translate"
    description := "Translate text: /translate <lang_code>|<text>"
    aliases := ["tr"] }

/-- The `tts` command descriptor (webhook.js lines 189-213). -/
def ttsCmd : CommandDescriptor :=
  { name := "tts"
    description := "Generate TTS: /tts <lang_code>|<text> (sends audio link)"
    aliases := ["voice"] }

/-- The `echo` command descriptor (webhook.js lines 216-224). -/
def echoCmd : CommandDescriptor :=
  { name := "echo", description := "Echo back the text", aliases := [] }

/-- The six descriptors, in registration order. -/
def allCommands : List CommandDescriptor :=
  [startCmd, pingCmd, helpCmd, translateCmd, ttsCmd, echoCmd]

/-- The registry after the startup registration sequence. -/
def commands : Registry := allCommands.foldl register []

/-! ## Collaborator oracles -/

/-- The raw outcome of the translation collaborator for one call
(webhook.js lines 85-103): either the `fetch`/`json` step throws
(`error`, caught by `translateText`, which then returns `null`), or a
JSON response arrives whose `translatedText` field may be missing. -/
inductive TranslateOutcome where
  | error
  | response (translatedText : Option String)
deriving DecidableEq, Repr

/-- `translateText` (webhook.js lines 85-103) as seen by its callers: a
thrown error yields `null` (modelled `none`), and an arriving response
is `data.translatedText || null`, so a missing or empty field is also
`none`. -/
def translateText (outcome : TranslateOutcome) : Option String :=
  match outcome with
  | TranslateOutcome.error => none
  | TranslateOutcome.response none => none
  | TranslateOutcome.response (some s) => if s = "" then none else some s

/-- External-collaborator behaviour for one message: the translation
call's outcome, and the result of `googleTTS.getAudioUrl` (`some url`,
or `none` when it throws — the handler catches that throw itself). -/
structure Oracles where
  translate : TranslateOutcome
  ttsUrl : Option String
deriving DecidableEq, Repr

/-- The per-invocation context handed to a handler: `ctx.from`,
`ctx.raw` (the trimmed text) and `ctx.args` (webhook.js lines 284-301,
326). -/
structure Ctx where
  sender : String
  raw : String
  args : String
deriving DecidableEq, Repr

/-! ## Command handlers -/

/-- The welcome text sent by the `start` handler (webhook.js line 129). -/
def welcomeText : String :=
  BOT_NAME ++ "\ncreated by " ++ CREATOR ++
    "\n\nWelcome! I can help with commands. Type /help for available commands."

/-- The links text sent by the `start` handler (webhook.js line 130). -/
def linksText : String :=
  "Join our WhatsApp Channel:\n" ++ CHANNEL_LINK ++
    "\n\nJoin our WhatsApp Group:\n" ++ GROUP_LINK ++
    "\n\nTap the link(s) above to join — you must accept/join on your device."

/-- The notice for non-text (or bodyless) messages (webhook.js line 334). -/
def nonTextNotice : String :=
  "Received non-text message. This demo handles text commands only. Type /help for commands."

/-- Usage text of `/translate` (webhook.js line 173). -/
def usageTranslate : String :=
  "Usage: /translate <lang_code>|<text>\nExample: /translate id|Hello world"

/-- Usage text of `/tts` (webhook.js line 195). -/
def usageTts : String :=
  "Usage: /tts <lang_code>|<text>\nExample: /tts en|Hello world"

/-- The `help` handler's listing (webhook.js lines 152-163): walk the
registry's values in insertion order, keep the first occurrence of each
canonical name, and join `/name — description` lines. -/
def helpListing : String :=
  let step := fun (acc : List String × List String) (p : String × CommandDescriptor) =>
    if acc.1.contains p.2.name then acc
    else (acc.1 ++ [p.2.name], acc.2 ++ ["/" ++ p.2.name ++ " — " ++ p.2.description])
  "Commands:\n" ++ jsJoin "\n" (commands.foldl step ([], [])).2

/-- The `translate` handler (webhook.js lines 171-185). -/
def execTranslate (ctx : Ctx) (o : Oracles) : List Event :=
  if ctx.args = "" ∨ ¬ jsContains ctx.args '|' then
    [Event.sendText ctx.sender usageTranslate]
  else
    let parts := jsSplit '|' ctx.args
    let lang := parts.headD ""
    let rest := parts.tail
    let txt := jsTrim (jsJoin "|" rest)
    if txt = "" then [Event.sendText ctx.sender "No text to translate provided."]
    else
      let target := jsTrim (if lang = "" then "en" else lang)
      match translateText o.translate with
      | some t =>
          [Event.translateCall txt target,
           Event.sendText ctx.sender ("Translated (" ++ target ++ "): " ++ t)]
      | none =>
          [Event.translateCall txt target, Event.sendText ctx.sender "Translation failed."]

/-- The `tts` handler (webhook.js lines 193-212). -/
def execTts (ctx : Ctx) (o : Oracles) : List Event :=
  if ctx.args = "" ∨ ¬ jsContains ctx.args '|' then
    [Event.sendText ctx.sender usageTts]
  else
    let parts := jsSplit '|' ctx.args
    let txt := jsTrim (jsJoin "|" parts.tail)
    if txt = "" then [Event.sendText ctx.sender "No text provided."]
    else
      match o.ttsUrl with
      | some url => [Event.sendAudioLink ctx.sender url]
      | none => [Event.sendText ctx.sender "TTS failed."]

/-- The handler of the command with canonical name `name`, as a trace of
events (webhook.js lines 124-224).  Unknown names produce no events
(never reached through the registry). -/
def execCommand (name : String) (ctx : Ctx) (o : Oracles) : List Event :=
  if name = "start" then
    [Event.sendText ctx.sender welcomeText, Event.sendText ctx.sender linksText]
  else if name = "ping" then [Event.sendText ctx.sender "pong"]
  else if name = "help" then [Event.sendText ctx.sender helpListing]
  else if name = "translate" then execTranslate ctx o
  else if name = "tts" then execTts ctx o
  else if name = "echo" then
    let toEcho := if ctx.args ≠ "" then ctx.args else if ctx.raw ≠ "" then ctx.raw else ""
    [Event.sendText ctx.sender ("Echo: " ++ toEcho)]
  else []

/-! ## Dispatcher -/

/-- A thrown JavaScript error, reduced to what the dispatcher reads from
it: `err.message` (the empty string models a falsy/absent message). -/
structure Err where
  message : String
deriving DecidableEq, Repr

/-- One invocation of a handler, as the dispatcher observes it: the
events it emitted, and the error it threw, if any. -/
structure HandlerRun where
  events : List Event
  error : Option Err
deriving DecidableEq, Repr

/-- The text of the dispatcher's error notice (webhook.js line 245):
`Command error: ` followed by `err.message || "internal error"`. -/
def errorNotice (e : Err) : String :=
  "Command error: " ++ (if e.message = "" then "internal error" else e.message)

/-- `dispatchCommandByName` (webhook.js lines 228-249).  `exec` stands
for `cmd.execute` applied to the enriched context: given the canonical
name of the resolved descriptor and the context, it yields that
invocation's run.  A falsy (empty) or unregistered name returns `false`
without invoking anything.  A handler error is caught and answered with
one error-notice send; `noticeSendFails` says whether that send itself
fails, and — because the source wraps it in `try { ... } catch (_) {}` —
it does not affect the result: the function is total and never
propagates an error. -/
def dispatchCommandByName (reg : Registry) (name : String) (ctx : Ctx)
    (exec : String → Ctx → HandlerRun) (noticeSendFails : Bool) : Bool × List Event :=
  if name = "" then (false, [])
  else
    match mapGet reg name with
    | none => (false, [])
    | some cmd =>
      let run := exec cmd.name ctx
      match run.error with
      | none => (true, Event.dispatch cmd.name ctx.args :: run.events)
      | some e =>
          (true, Event.dispatch cmd.name ctx.args ::
            (run.events ++ [Event.sendText ctx.sender (errorNotice e)]))

/-! ## Inbound router -/

/-- The inbound message type tag: `text`, or anything else. -/
inductive MsgType where
  | text
  | other
deriving DecidableEq, Repr

/-- One inbound message: `message.from`, `message.type`, and
`message.text.body` (`none` models a missing `text` object or body). -/
structure InboundMessage where
  sender : String
  type : MsgType
  body : Option String
deriving DecidableEq, Repr

/-- Tokenization as the router performs it (webhook.js lines 293-294):
trim, then split on single spaces and drop empty pieces
(`text.split(" ").filter(Boolean)`). -/
def tokenize (raw : String) : List String :=
  (jsSplit ' ' (jsTrim raw)).filter (fun t => t ≠ "")

/-- The argument string: tokens from index 1 on, rejoined with single
spaces (webhook.js lines 300, 316, 321). -/
def argString (raw : String) : String :=
  jsJoin " " ((tokenize raw).drop 1)

/-- The onboarding trigger set (webhook.js line 299). -/
def onboardingTriggers : List String := ["/start", "start", "hi", "hello", "hey"]

/-- Per-message routing (webhook.js lines 279-335), with every outbound
send succeeding; handler runs therefore carry `error := none`. -/
def handleMessage (msg : InboundMessage) (o : Oracles) : List Event :=
  match msg.type, msg.body with
  | MsgType.text, some s =>
    if s = "" then [Event.sendText msg.sender nonTextNotice]
    else
      let text := jsTrim s
      let tokens := (jsSplit ' ' text).filter (fun t => t ≠ "")
      let first := tokens.headD ""
      let lcFirst := jsToLower first
      if onboardingTriggers.contains lcFirst then
        let argsRaw := jsJoin " " (tokens.drop 1)
        let ctx : Ctx := ⟨msg.sender, text, argsRaw⟩
        let r := dispatchCommandByName commands "start" ctx
          (fun n c => ⟨execCommand n c o, none⟩) false
        if r.1 then r.2
        else r.2 ++
          [Event.sendText msg.sender (BOT_NAME ++ "\ncreated by " ++ CREATOR ++
            "\n\nWelcome! Type /help for commands."),
           Event.sendText msg.sender ("Join our Channel: " ++ CHANNEL_LINK ++
            "\nJoin our Group: " ++ GROUP_LINK)]
      else
        let parsed : Option String × String :=
          if jsStartsWith first "/" ∨ jsStartsWith first "!" then
            (some (jsToLower (jsDropFirst first)), jsJoin " " (tokens.drop 1))
          else
            let maybe := jsToLower first
            if (mapGet commands maybe).isSome then
              (some maybe, jsJoin " " (tokens.drop 1))
            else (none, "")
        match parsed.1 with
        | some cmdName =>
          if cmdName ≠ "" ∧ (mapGet commands cmdName).isSome then
            let ctx : Ctx := ⟨msg.sender, text, parsed.2⟩
            (dispatchCommandByName commands cmdName ctx
              (fun n c => ⟨execCommand n c o, none⟩) false).2
          else
            [Event.sendText msg.sender
              ("You said: " ++ text ++ "\nType /help for available commands.")]
        | none =>
          [Event.sendText msg.sender
            ("You said: " ++ text ++ "\nType /help for available commands.")]
  | _, _ => [Event.sendText msg.sender nonTextNotice]

/-! ## GET verification -/

/-- The query parameters the GET branch reads (webhook.js lines
257-259); `none` is an absent parameter. -/
structure Query where
  hubMode : Option String
  hubVerifyToken : Option String
  hubChallenge : Option String
  mode : Option String
  verifyToken : Option String
  challenge : Option String
deriving DecidableEq, Repr

/-- JS `a || b` on string-or-undefined slots: keep `a` when it is a
non-empty string, else take `b`. -/
def jsOr (a b : Option String) : Option String :=
  match a with
  | some s => if s = "" then b else some s
  | none => b

/-- JS truthiness of a string-or-undefined slot. -/
def truthy : Option String → Bool
  | some s => s ≠ ""
  | none => false

/-- An HTTP response: status code and body. -/
structure HttpResponse where
  status : Nat
  body : String
deriving DecidableEq, Repr

/-- The GET verification branch (webhook.js lines 255-264).  `secret`
is `process.env.WHATSAPP_VERIFY_TOKEN` (`none` when unset, in which
case `token === VERIFY_TOKEN` is `undefined === undefined`, i.e.
`Option` equality here). -/
def handleGet (q : Query) (secret : Option String) : HttpResponse :=
  let mode := jsOr q.hubMode q.mode
  let token := jsOr q.hubVerifyToken q.verifyToken
  let challenge := jsOr q.hubChallenge q.challenge
  if truthy mode ∧ token = secret then
    { status := 200
      body := match challenge with
              | some c => if c = "" then "OK" else c
              | none => "OK" }
  else { status := 403, body := "Invalid verify token" }

/-! ## Theorems -/

/-- Helper: looking up `start` in the startup registry yields the
`start` descriptor. -/
theorem mapGet_commands_start : mapGet commands "start" = some startCmd := by decide

/-- C6: after the startup registration sequence, the registry's key list
has no duplicate (every alias and canonical-name key maps to exactly one
descriptor), each registered descriptor's canonical name is a key
mapping to that descriptor, and every alias of a registered descriptor
looks up to the same descriptor as its canonical name. -/
theorem c6_registry_invariant :
    (commands.map Prod.fst).Nodup ∧
    allCommands.all (fun d =>
      (mapGet commands d.name == some d) &&
      d.aliases.all (fun a => mapGet commands a == some d)) = true := by
  decide

/-- C3 counterexample: tokenization does not split on tabs (nor on any
whitespace other than the space character): the raw text "a\tb", which
the claim says splits into the two tokens "a" and "b", stays one token. -/
theorem c3_counterexample :
    tokenize "a\tb" = ["a\tb"] ∧ tokenize "a\tb" ≠ ["a", "b"] := by decide

/-- C3 (amended): tokenization trims leading and trailing whitespace and
splits on runs of SPACE characters only (tabs and newlines are not
separators) into non-empty tokens, and the argument string is the tokens
from index 1 onward rejoined with single spaces; in particular
tokenizing "  /tr  id|Hello   world  " yields first token "/tr" and
argument string "id|Hello world", pipe content preserved verbatim. -/
theorem c3_tokenizer :
    (∀ raw : String, "" ∉ tokenize raw) ∧
    (∀ raw : String, argString raw = jsJoin " " ((tokenize raw).drop 1)) ∧
    tokenize "  /tr  id|Hello   world  " = ["/tr", "id|Hello", "world"] ∧
    (tokenize "  /tr  id|Hello   world  ").headD "" = "/tr" ∧
    argString "  /tr  id|Hello   world  " = "id|Hello world" := by
  refine ⟨?_, fun raw => rfl, by decide, by decide, by decide⟩
  intro raw h
  simp [tokenize, List.mem_filter] at h

/-- C2 counterexample: a text message whose body is a single space has a
body that is empty after trimming, yet the router answers it with the
default "You said:" echo response, not the fixed unsupported/empty
notice. -/
theorem c2_counterexample :
    handleMessage ⟨"1", MsgType.text, some " "⟩ ⟨TranslateOutcome.error, none⟩ =
      [Event.sendText "1" "You said: \nType /help for available commands."] ∧
    handleMessage ⟨"1", MsgType.text, some " "⟩ ⟨TranslateOutcome.error, none⟩ ≠
      [Event.sendText "1" nonTextNotice] := by decide

/-- C2 (amended): a message whose type is not text, or whose text body
is absent or the EMPTY STRING, gets the fixed unsupported/empty notice
and dispatches no command; but a non-empty body consisting only of
whitespace (empty after trimming) instead falls through to the default
"You said:" echo response (still dispatching no command). -/
theorem c2_router_empty (msg : InboundMessage) (o : Oracles) :
    ((msg.type = MsgType.other ∨ msg.body = none ∨ msg.body = some "") →
      handleMessage msg o = [Event.sendText msg.sender nonTextNotice]) ∧
    (∀ s : String, msg.type = MsgType.text → msg.body = some s → s ≠ "" → jsTrim s = "" →
      handleMessage msg o =
        [Event.sendText msg.sender "You said: \nType /help for available commands."]) := by
  obtain ⟨sender, type, body⟩ := msg
  constructor
  · rintro (rfl | rfl | rfl)
    · rfl
    · cases type <;> rfl
    · cases type <;> rfl
  · rintro s rfl rfl hs htrim
    simp only [handleMessage]
    rw [if_neg hs]
    simp only [htrim]
    rfl

/-- C5 counterexample: with mode "subscribe" present and the verify
token matching the secret "tok", the challenge supplied as the empty
string must — per the claim — be echoed as the 200 body; the code
instead sends the body "OK" (`challenge || "OK"`). -/
theorem c5_counterexample :
    handleGet ⟨some "subscribe", some "tok", some "", none, none, none⟩ (some "tok") =
      ⟨200, "OK"⟩ ∧ ("OK" : String) ≠ "" := by decide

/-- C5 (amended): the GET verification branch responds 200 exactly when
the effective mode (hub.mode, falling back to mode) is present and
non-empty and the effective supplied verify token equals the configured
secret; the 200 body is the supplied challenge when that is non-empty
and the literal "OK" when the challenge is absent or empty; every other
case gets 403 with body "Invalid verify token". -/
theorem c5_get_verification (q : Query) (secret : Option String) :
    ((handleGet q secret).status = 200 ↔
      truthy (jsOr q.hubMode q.mode) = true ∧
        jsOr q.hubVerifyToken q.verifyToken = secret) ∧
    ((handleGet q secret).status ≠ 200 →
      handleGet q secret = ⟨403, "Invalid verify token"⟩) ∧
    (∀ c : String, (handleGet q secret).status = 200 →
      jsOr q.hubChallenge q.challenge = some c → c ≠ "" →
      (handleGet q secret).body = c) ∧
    (jsOr q.hubChallenge q.challenge = none → (handleGet q secret).status = 200 →
      (handleGet q secret).body = "OK") := by
  by_cases h : truthy (jsOr q.hubMode q.mode) = true ∧
      jsOr q.hubVerifyToken q.verifyToken = secret
  · refine ⟨by simp [handleGet, h], by simp [handleGet, h], ?_, ?_⟩
    · intro c _ hc hne
      simp [handleGet, h, hc, hne]
    · intro hc _
      simp [handleGet, h, hc]
  · refine ⟨by simp [handleGet, h], by simp [handleGet, h], ?_, ?_⟩
    · intro c h200
      exact absurd h200 (by simp [handleGet, h])
    · intro _ h200
      exact absurd h200 (by simp [handleGet, h])

/-- C5 witness: a complete verification request (mode "subscribe",
matching token "tok", challenge "ch") is answered 200 with body "ch". -/
theorem c5_get_verification_witness :
    (handleGet ⟨some "subscribe", some "tok", some "ch", none, none, none⟩
      (some "tok")).body = "ch" :=
  (c5_get_verification ⟨some "subscribe", some "tok", some "ch", none, none, none⟩
    (some "tok")).2.2.1 "ch" (by decide) (by decide) (by decide)

/-- C2 witness: a non-text message gets the fixed notice, and a
two-space text body gets the echo fallback. -/
theorem c2_router_empty_witness :
    handleMessage ⟨"1", MsgType.other, none⟩ ⟨TranslateOutcome.error, none⟩ =
      [Event.sendText "1" nonTextNotice] ∧
    handleMessage ⟨"7", MsgType.text, some "  "⟩ ⟨TranslateOutcome.error, none⟩ =
      [Event.sendText "7" "You said: \nType /help for available commands."] :=
  ⟨(c2_router_empty ⟨"1", MsgType.other, none⟩ ⟨TranslateOutcome.error, none⟩).1
     (Or.inl rfl),
   (c2_router_empty ⟨"7", MsgType.text, some "  "⟩ ⟨TranslateOutcome.error, none⟩).2
     "  " rfl rfl (by decide) (by decide)⟩

/-- C10: with the verify-token secret unconfigured (the environment
variable absent, so the configured value is undefined), any GET request
supplying a non-empty mode but neither hub.verify_token nor verify_token
is answered 200: the absent supplied token compares equal
(undefined === undefined) to the absent secret. -/
theorem c10_unconfigured_secret (q : Query)
    (hm : truthy (jsOr q.hubMode q.mode) = true)
    (h1 : q.hubVerifyToken = none) (h2 : q.verifyToken = none) :
    (handleGet q none).status = 200 := by
  have ht : jsOr q.hubVerifyToken q.verifyToken = none := by rw [h1, h2]; rfl
  simp [handleGet, hm, ht]

/-- C10 witness: mode "subscribe", no token parameters, no configured
secret: status 200. -/
theorem c10_unconfigured_secret_witness :
    (handleGet ⟨some "subscribe", none, none, none, none, none⟩ none).status = 200 :=
  c10_unconfigured_secret ⟨some "subscribe", none, none, none, none, none⟩
    (by decide) rfl rfl

/-- C1 counterexample: when the `ping` handler throws an error whose
message is "boom", the failure notice sent back to the sender is
"Command error: boom" — the thrown error's message appears verbatim
(as a suffix) in the outbound text, contradicting the claim that no
exception message from the thrown error appears there. -/
theorem c1_counterexample :
    (dispatchCommandByName commands "ping" ⟨"111", "/ping", ""⟩
        (fun _ _ => ⟨[], some ⟨"boom"⟩⟩) false).2 =
      [Event.dispatch "ping" "", Event.sendText "111" "Command error: boom"] ∧
    "boom".data.isSuffixOf ("Command error: boom").data = true := by decide

/-- C1 (amended): for every registered command and every error thrown by
its handler during dispatch, the failure notice sent back to the sender
is the plain text "Command error: " followed by the thrown error's
message (or by "internal error" when that message is empty/falsy); no
stack content is included, but the raw error message is. -/
theorem c1_error_notice (name : String) (ctx : Ctx)
    (exec : String → Ctx → HandlerRun) (b : Bool) (d : CommandDescriptor) (e : Err)
    (hd : mapGet commands name = some d) (he : (exec d.name ctx).error = some e) :
    (dispatchCommandByName commands name ctx exec b).2 =
      Event.dispatch d.name ctx.args ::
        ((exec d.name ctx).events ++
          [Event.sendText ctx.sender
            ("Command error: " ++
              (if e.message = "" then "internal error" else e.message))]) := by
  have hn : name ≠ "" := by
    rintro rfl
    rw [show mapGet commands "" = none from by decide] at hd
    exact Option.noConfusion hd
  simp [dispatchCommandByName, hn, hd, he, errorNotice]

/-- C1 witness: an error with an empty (falsy) message, thrown by the
command resolved through the alias "tr", is reported as
"Command error: internal error". -/
theorem c1_error_notice_witness :
    (dispatchCommandByName commands "tr" ⟨"222", "/tr x", "x"⟩
        (fun _ _ => ⟨[], some ⟨""⟩⟩) true).2 =
      [Event.dispatch "translate" "x",
       Event.sendText "222" "Command error: internal error"] := by
  have h := c1_error_notice "tr" ⟨"222", "/tr x", "x"⟩
    (fun _ _ => ⟨[], some ⟨""⟩⟩) true translateCmd ⟨""⟩ (by decide) rfl
  simpa using h

/-- C4: `dispatchCommandByName` returns true exactly when the name is
non-empty (non-falsy) and registered; when the invoked handler fails,
the failure is caught and exactly one error-notice send to the sender is
appended to the handler's events; and the result does not depend on
whether that notice send itself fails (the secondary failure is
swallowed) — the function is total, so no exception reaches the caller. -/
theorem c4_dispatch_contract (name : String) (ctx : Ctx)
    (exec : String → Ctx → HandlerRun) (b : Bool) :
    ((dispatchCommandByName commands name ctx exec b).1 = true ↔
      name ≠ "" ∧ (mapGet commands name).isSome = true) ∧
    (∀ d e, mapGet commands name = some d → (exec d.name ctx).error = some e →
      (dispatchCommandByName commands name ctx exec b).2 =
        Event.dispatch d.name ctx.args ::
          ((exec d.name ctx).events ++
            [Event.sendText ctx.sender (errorNotice e)])) ∧
    (∀ b₂ : Bool, dispatchCommandByName commands name ctx exec b =
      dispatchCommandByName commands name ctx exec b₂) := by
  refine ⟨?_, ?_, fun b₂ => rfl⟩
  · by_cases hn : name = ""
    · subst hn
      simp [dispatchCommandByName]
    · cases hg : mapGet commands name with
      | none => simp [dispatchCommandByName, hn, hg]
      | some d =>
        cases he : (exec d.name ctx).error <;>
          simp [dispatchCommandByName, hn, hg, he]
  · intro d e hd he
    have hn : name ≠ "" := by
      rintro rfl
      rw [show mapGet commands "" = none from by decide] at hd
      exact Option.noConfusion hd
    simp [dispatchCommandByName, hn, hd, he]

/-- C4 witness: dispatching the alias "p" whose handler emitted one send
and then threw yields `true` and the handler's events followed by one
error notice. -/
theorem c4_dispatch_contract_witness :
    (dispatchCommandByName commands "p" ⟨"u", "!p", ""⟩
        (fun _ _ => ⟨[Event.sendText "u" "pong"], some ⟨"network down"⟩⟩) false).2 =
      Event.dispatch "ping" "" ::
        ([Event.sendText "u" "pong"] ++
          [Event.sendText "u" (errorNotice ⟨"network down"⟩)]) :=
  (c4_dispatch_contract "p" ⟨"u", "!p", ""⟩
    (fun _ _ => ⟨[Event.sendText "u" "pong"], some ⟨"network down"⟩⟩) false).2.1
    pingCmd ⟨"network down"⟩ (by decide) rfl

/-- C7: a `translate` invocation whose argument string is empty or has
no pipe sends the usage message; one whose text after the first pipe is
empty after trimming sends the "No text to translate provided." notice;
in both cases the trace contains no call to the translation
collaborator. -/
theorem c7_translate_usage (ctx : Ctx) (o : Oracles) :
    ((ctx.args = "" ∨ jsContains ctx.args '|' = false) →
      execTranslate ctx o = [Event.sendText ctx.sender usageTranslate]) ∧
    (jsContains ctx.args '|' = true →
      jsTrim (jsJoin "|" ((jsSplit '|' ctx.args).tail)) = "" →
      execTranslate ctx o =
        [Event.sendText ctx.sender "No text to translate provided."]) ∧
    (((ctx.args = "" ∨ jsContains ctx.args '|' = false) ∨
        jsTrim (jsJoin "|" ((jsSplit '|' ctx.args).tail)) = "") →
      (execTranslate ctx o).filter isTranslateCall = []) := by
  have husage : (ctx.args = "" ∨ jsContains ctx.args '|' = false) →
      execTranslate ctx o = [Event.sendText ctx.sender usageTranslate] := by
    intro hc
    rcases hc with hc | hc
    · simp [execTranslate, hc]
    · simp [execTranslate, hc]
  have hempty : jsContains ctx.args '|' = true →
      jsTrim (jsJoin "|" ((jsSplit '|' ctx.args).tail)) = "" →
      execTranslate ctx o =
        [Event.sendText ctx.sender "No text to translate provided."] := by
    intro hc htxt
    have ha : ctx.args ≠ "" := by
      rintro h0
      rw [h0] at hc
      exact absurd hc (by decide)
    simp [execTranslate, hc, ha, htxt]
  refine ⟨husage, hempty, ?_⟩
  rintro (hc | htxt)
  · rw [husage hc]
    rfl
  · by_cases hc : jsContains ctx.args '|' = true
    · rw [hempty hc htxt]
      rfl
    · rw [husage (Or.inr (by simpa using hc))]
      rfl

/-- C7 witness: "/translate hello" (no pipe) gets the usage message, and
"/translate id| " (only whitespace after the pipe) gets the no-text
notice; neither calls the collaborator. -/
theorem c7_translate_usage_witness :
    execTranslate ⟨"u", "/translate hello", "hello"⟩ ⟨TranslateOutcome.error, none⟩ =
      [Event.sendText "u" usageTranslate] ∧
    execTranslate ⟨"u", "/translate id| ", "id| "⟩ ⟨TranslateOutcome.error, none⟩ =
      [Event.sendText "u" "No text to translate provided."] :=
  ⟨(c7_translate_usage ⟨"u", "/translate hello", "hello"⟩
      ⟨TranslateOutcome.error, none⟩).1 (Or.inr (by decide)),
   (c7_translate_usage ⟨"u", "/translate id| ", "id| "⟩
      ⟨TranslateOutcome.error, none⟩).2.1 (by decide) (by decide)⟩

/-- C8: for the inbound text "/translate id|Hello world", a collaborator
answer "Halo dunia" yields exactly one outbound text,
"Translated (id): Halo dunia"; and whenever the collaborator yields
nothing (a thrown error or missing field, both of which `translateText`
converts to nothing), the single outbound text is "Translation failed." -/
theorem c8_translate_roundtrip (o : Oracles) :
    (o.translate = TranslateOutcome.response (some "Halo dunia") →
      outbound (handleMessage
          ⟨"254700000001", MsgType.text, some "/translate id|Hello world"⟩ o) =
        [Event.sendText "254700000001" "Translated (id): Halo dunia"]) ∧
    (translateText o.translate = none →
      outbound (handleMessage
          ⟨"254700000001", MsgType.text, some "/translate id|Hello world"⟩ o) =
        [Event.sendText "254700000001" "Translation failed."]) := by
  obtain ⟨t, u⟩ := o
  constructor
  · rintro h
    simp only at h
    subst h
    rfl
  · intro h
    simp only [translateText] at h
    match t with
    | TranslateOutcome.error => rfl
    | TranslateOutcome.response none => rfl
    | TranslateOutcome.response (some s) =>
      by_cases hs : s = ""
      · subst hs
        rfl
      · simp [hs] at h

/-- C8 witness: both branches at concrete oracles. -/
theorem c8_translate_roundtrip_witness :
    outbound (handleMessage
        ⟨"254700000001", MsgType.text, some "/translate id|Hello world"⟩
        ⟨TranslateOutcome.response (some "Halo dunia"), none⟩) =
      [Event.sendText "254700000001" "Translated (id): Halo dunia"] ∧
    outbound (handleMessage
        ⟨"254700000001", MsgType.text, some "/translate id|Hello world"⟩
        ⟨TranslateOutcome.error, none⟩) =
      [Event.sendText "254700000001" "Translation failed."] :=
  ⟨(c8_translate_roundtrip ⟨TranslateOutcome.response (some "Halo dunia"), none⟩).1 rfl,
   (c8_translate_roundtrip ⟨TranslateOutcome.error, none⟩).2 rfl⟩

/-- C9: any inbound text whose first token lower-cases to one of
/start, start, hi, hello, hey routes to the `start` command, which is
dispatched exactly once with the remaining tokens rejoined as its
argument string, and exactly two outbound texts are sent, in order:
the welcome/signature text, then the channel-and-group links text. -/
theorem c9_onboarding (sender s : String) (o : Oracles)
    (h : onboardingTriggers.contains (jsToLower ((tokenize s).headD "")) = true) :
    handleMessage ⟨sender, MsgType.text, some s⟩ o =
      [Event.dispatch "start" (argString s),
       Event.sendText sender welcomeText, Event.sendText sender linksText] ∧
    outbound (handleMessage ⟨sender, MsgType.text, some s⟩ o) =
      [Event.sendText sender welcomeText, Event.sendText sender linksText] ∧
    dispatchCount "start" (handleMessage ⟨sender, MsgType.text, some s⟩ o) = 1 := by
  have hs : s ≠ "" := by
    rintro rfl
    exact absurd h (by decide)
  simp only [tokenize] at h
  have main : handleMessage ⟨sender, MsgType.text, some s⟩ o =
      [Event.dispatch "start" (argString s),
       Event.sendText sender welcomeText, Event.sendText sender linksText] := by
    simp only [handleMessage]
    rw [if_neg hs, if_pos h]
    simp [dispatchCommandByName, mapGet_commands_start, execCommand,
      argString, tokenize, startCmd]
  refine ⟨main, ?_, ?_⟩
  · rw [main]
    rfl
  · rw [main]
    rfl

/-- C9 witness: the message "HEY there friend" (mixed case, no slash)
routes to start once with argument string "there friend" and sends
welcome then links. -/
theorem c9_onboarding_witness :
    handleMessage ⟨"42", MsgType.text, some "HEY there friend"⟩
        ⟨TranslateOutcome.error, none⟩ =
      [Event.dispatch "start" (argString "HEY there friend"),
       Event.sendText "42" welcomeText, Event.sendText "42" linksText] :=
  (c9_onboarding "42" "HEY there friend" ⟨TranslateOutcome.error, none⟩ (by decide)).1

end BrianXMD
